import Mathlib

set_option linter.unusedVariables false

/-!
Verification of the binance-signal-detecter repository against its
natural-language specification.

The repository is three Python files: `pump_detector.py` (the detection
pipeline), `telegram_bot.py` (the notifier and its config loader) and
`app.py` (a Flask read endpoint).  Numeric values are embedded as
rationals (`ℚ`); Python `None` / raised-and-caught exceptions become
`Option`; the global state touched by a cycle (the signal log, the
USDT-pairs cache) is passed explicitly; network results are parameters
of the embedded functions.
-/

namespace PumpDetector

/-- Embeds `normalize_value(value, min_value, max_value)` from
`pump_detector.py` lines 191-206: `max(0, min(1, (value - min) / (max - min)))`,
with the `ZeroDivisionError` handler returning the neutral `0.5` when the
range is degenerate. -/
def normalize_value (value min_value max_value : ℚ) : ℚ :=
  if max_value - min_value = 0 then 1/2
  else max 0 (min 1 ((value - min_value) / (max_value - min_value)))

/-- Embeds `calculate_confidence_boost(volume_spike, price_change_percent)`
from `pump_detector.py` lines 208-221: `+0.1` for a volume spike above 2,
`+0.1` for an absolute price change above 10, capped at `0.2`. -/
def calculate_confidence_boost (volume_spike price_change_percent : ℚ) : ℚ :=
  let volume_boost : ℚ := if volume_spike > 2 then 1/10 else 0
  let price_boost : ℚ := if abs price_change_percent > 10 then 1/10 else 0
  min (volume_boost + price_boost) (2/10)

/-- The `market_data` dict built in `detect_pumps` (lines 251-255).  The
`volume` and `price_change_percent` entries are `Option` so that a missing
key (Python `KeyError`) is representable; `close_prices` is the per-symbol
historical series. -/
structure MarketData where
  volume : Option ℚ
  price_change_percent : Option ℚ
  close_prices : List ℚ
deriving DecidableEq

/-- Embeds `calculate_market_sentiment_by_volume(symbol, market_data,
average_volume, weights)` from `pump_detector.py` lines 136-189.
`weights = none` is Python `weights=None`, replaced by the defaults
volume 0.7 and price 0.3.  A missing `volume` or
`price_change_percent` key raises `KeyError`, caught at line 185 → `None`;
`average_volume = 0` makes line 169 raise `ZeroDivisionError`, caught by
the blanket `except Exception` at line 187 → `None`.  The `symbol`
argument is only used by the exception-path `print` calls. -/
def calculate_market_sentiment_by_volume (symbol : String)
    (market_data : MarketData) (average_volume : ℚ)
    (weights : Option (ℚ × ℚ)) : Option ℚ :=
  let w := weights.getD (7/10, 3/10)
  match market_data.volume, market_data.price_change_percent with
  | some current_volume, some price_change_percent =>
    if average_volume = 0 then none
    else
      let volume_spike := (current_volume - average_volume) / average_volume
      let volume_sentiment := normalize_value (volume_spike + 1) 0 2
      let price_sentiment := normalize_value price_change_percent 0 100
      let confidence_boost :=
        calculate_confidence_boost volume_spike price_change_percent
      let market_sentiment :=
        w.1 * volume_sentiment + w.2 * price_sentiment + confidence_boost
      some (min market_sentiment 1)
  | _, _ => none

/-! ### Spec-side formula for the refinement claim C3.

These definitions are written from the claim's own words, to be compared
with the embedding of the source above. -/

/-- Modelled from the claim's wording: `clamp(x, 0, 1)`. -/
def spec_clamp01 (x : ℚ) : ℚ := max 0 (min 1 x)

/-- Modelled from the claim's wording:
`volume_sentiment = clamp(((volume − average)/average + 1)/2, 0, 1)`. -/
def spec_volume_sentiment (volume average : ℚ) : ℚ :=
  spec_clamp01 (((volume - average) / average + 1) / 2)

/-- Modelled from the claim's wording:
`price_sentiment = clamp(price_change_percent/100, 0, 1)`. -/
def spec_price_sentiment (price_change_percent : ℚ) : ℚ :=
  spec_clamp01 (price_change_percent / 100)

/-- Modelled from the claim's wording: `confidence_boost` adds `0.1` when
the volume spike exceeds 2 plus `0.1` when `|price_change_percent| > 10`,
capped at `0.2`. -/
def spec_confidence_boost (volume average price_change_percent : ℚ) : ℚ :=
  min ((if 2 < (volume - average) / average then (1:ℚ)/10 else 0) +
       (if 10 < abs price_change_percent then (1:ℚ)/10 else 0)) (2/10)

/-- Modelled from the claim's wording:
`min(1, 0.7·volume_sentiment + 0.3·price_sentiment + confidence_boost)`. -/
def spec_score (volume average price_change_percent : ℚ) : ℚ :=
  min 1 (7/10 * spec_volume_sentiment volume average +
         3/10 * spec_price_sentiment price_change_percent +
         spec_confidence_boost volume average price_change_percent)

/-! ### Range lemmas for the sentiment score -/

lemma normalize_value_nonneg (value min_value max_value : ℚ) :
    0 ≤ normalize_value value min_value max_value := by
  unfold normalize_value
  split
  · norm_num
  · exact le_max_left _ _

lemma normalize_value_le_one (value min_value max_value : ℚ) :
    normalize_value value min_value max_value ≤ 1 := by
  unfold normalize_value
  split
  · norm_num
  · exact max_le (by norm_num) (min_le_left _ _)

lemma calculate_confidence_boost_nonneg (volume_spike price_change_percent : ℚ) :
    0 ≤ calculate_confidence_boost volume_spike price_change_percent := by
  unfold calculate_confidence_boost
  refine le_min (add_nonneg ?_ ?_) (by norm_num) <;> split <;> norm_num

/-- With default weights the sentiment, when defined, lies in `[0, 1]`. -/
lemma sentiment_mem_unit (symbol : String) (market_data : MarketData)
    (average_volume q : ℚ)
    (h : calculate_market_sentiment_by_volume symbol market_data average_volume
          none = some q) : 0 ≤ q ∧ q ≤ 1 := by
  unfold calculate_market_sentiment_by_volume at h
  rcases market_data with ⟨v, p, cps⟩
  cases v with
  | none => simp at h
  | some cv =>
    cases p with
    | none => simp at h
    | some pc =>
      simp only [Option.getD] at h
      by_cases hz : average_volume = 0
      · simp [hz] at h
      · simp only [hz, if_false] at h
        rw [Option.some_inj] at h
        subst h
        constructor
        · refine le_min ?_ (by norm_num)
          have h1 := normalize_value_nonneg ((cv - average_volume) / average_volume + 1) 0 2
          have h2 := normalize_value_nonneg pc 0 100
          have h3 := calculate_confidence_boost_nonneg
            ((cv - average_volume) / average_volume) pc
          nlinarith
        · exact min_le_right _ _

/-! ### Bridges between the source embedding and the claim-side formula -/

lemma normalize_value_zero_two (x : ℚ) :
    normalize_value (x + 1) 0 2 = spec_clamp01 ((x + 1) / 2) := by
  unfold normalize_value spec_clamp01
  norm_num

lemma normalize_value_zero_hundred (p : ℚ) :
    normalize_value p 0 100 = spec_clamp01 (p / 100) := by
  unfold normalize_value spec_clamp01
  norm_num

lemma calculate_confidence_boost_spec (v avg p : ℚ) :
    calculate_confidence_boost ((v - avg) / avg) p = spec_confidence_boost v avg p := by
  unfold calculate_confidence_boost spec_confidence_boost
  rfl

/-! ### Claims C2, C3, C4 -/

/-- C2 (corrected): when the cross-sectional average volume is 0 and both
market-data fields are present, `calculate_market_sentiment_by_volume` returns
`None` — the `ZeroDivisionError` raised by the volume-spike division is
caught by the blanket `except Exception` handler — not the neutral `0.5`
(that guard lives in `normalize_value`, which is never reached). -/
theorem sentiment_zero_average_returns_none (symbol : String) (v p : ℚ)
    (cps : List ℚ) (weights : Option (ℚ × ℚ)) :
    calculate_market_sentiment_by_volume symbol ⟨some v, some p, cps⟩ 0 weights
      = none := by
  unfold calculate_market_sentiment_by_volume
  simp

/-- C2 counterexample: at a concrete input with average volume 0 the score
is `None`, refuting "returns exactly 0.5 … rather than returning None". -/
theorem sentiment_zero_average_cex :
    calculate_market_sentiment_by_volume "BTCUSDT" ⟨some 5, some 1, []⟩ 0 none
        = none ∧
    calculate_market_sentiment_by_volume "BTCUSDT" ⟨some 5, some 1, []⟩ 0 none
        ≠ some (1/2) := by
  refine ⟨rfl, ?_⟩
  decide

/-- C3 (confirmed): for nonzero average volume and default weights the score
equals `min(1, 0.7·volume_sentiment + 0.3·price_sentiment + confidence_boost)`
with the sub-terms exactly as the claim spells them out. -/
theorem sentiment_matches_spec_formula (symbol : String) (v p : ℚ)
    (cps : List ℚ) (avg : ℚ) (h : avg ≠ 0) :
    calculate_market_sentiment_by_volume symbol ⟨some v, some p, cps⟩ avg none
      = some (spec_score v avg p) := by
  unfold calculate_market_sentiment_by_volume spec_score
  simp only [Option.getD, h, if_false]
  rw [normalize_value_zero_two, normalize_value_zero_hundred,
      calculate_confidence_boost_spec, min_comm]
  unfold spec_volume_sentiment spec_price_sentiment
  norm_num

/-- C3 witness at a concrete input. -/
theorem sentiment_matches_spec_formula_witness :
    (1:ℚ) ≠ 0 ∧
    calculate_market_sentiment_by_volume "BTCUSDT" ⟨some 1, some 0, []⟩ 1 none
      = some (spec_score 1 1 0) :=
  ⟨by norm_num, sentiment_matches_spec_formula "BTCUSDT" 1 0 [] 1 (by norm_num)⟩

/-- C4 counterexample: no input at all gives a strictly negative score under
the default weights, refuting the claim's "for some input … returns a
strictly negative score". -/
theorem sentiment_never_negative_cex :
    ¬ ∃ (symbol : String) (market_data : MarketData) (average_volume q : ℚ),
        calculate_market_sentiment_by_volume symbol market_data average_volume
            none = some q ∧ q < 0 := by
  rintro ⟨s, md, avg, q, h, hq⟩
  exact absurd (sentiment_mem_unit s md avg q h).1 (not_le.mpr hq)

/-- C4 (corrected): the final value is clamped only above by `min(·, 1)`,
but because both sentiment components are pre-clamped to `[0,1]` and the
confidence boost is nonnegative, every defined score already lies in
`[0, 1]` — a strictly negative score is impossible. -/
theorem sentiment_clamped_above_and_nonneg (symbol : String)
    (market_data : MarketData) (average_volume q : ℚ)
    (h : calculate_market_sentiment_by_volume symbol market_data average_volume
          none = some q) : 0 ≤ q ∧ q ≤ 1 :=
  sentiment_mem_unit symbol market_data average_volume q h

/-- C4 witness at a concrete input. -/
theorem sentiment_clamped_above_and_nonneg_witness :
    (0:ℚ) ≤ 7/20 ∧ (7/20:ℚ) ≤ 1 :=
  sentiment_clamped_above_and_nonneg "BTCUSDT" ⟨some 1, some 0, []⟩ 1 (7/20)
    (by
      unfold calculate_market_sentiment_by_volume normalize_value
        calculate_confidence_boost
      norm_num [min_def, max_def])

/-! ### The detection cycle: `detect_pumps` (`pump_detector.py` lines 223-271) -/

/-- A row of the ticker DataFrame as consumed by the loop at lines 245-248,
after `float(row["priceChangePercent"])` and `float(row["volume"])`. -/
structure Row where
  symbol : String
  priceChangePercent : ℚ
  volume : ℚ
deriving DecidableEq

/-- The signal dict built at lines 259-266.  `timestamp` holds the value of
`datetime.now().isoformat()`, passed into the model as an opaque string. -/
structure Signal where
  symbol : String
  priceChangePercent : ℚ
  volume : ℚ
  sentiment_score : ℚ
  action : String
  timestamp : String
deriving DecidableEq

/-- One outbound `send_telegram_message` call made during a cycle: the
unconditional "Signal Detection started.." message of lines 224-225, or the
rendered batch of `send_batch_to_telegram` (line 271). -/
inductive TelegramCall where
  | startMsg : TelegramCall
  | batchMsg : List Signal → TelegramCall
deriving DecidableEq

/-- Result of one `detect_pumps` cycle: the new value of the process-wide
`detected_signals` list, the cycle-local `batch_signals`, and the outbound
Telegram calls in the order they are made. -/
structure DetectResult where
  log : List Signal
  batch : List Signal
  calls : List TelegramCall
deriving DecidableEq

/-- The body of the per-row loop (lines 245-268): build `market_data`
(with the row's history), score it, and emit a Signal when the guard at
line 258 holds.  Python's `if market_sentiment and market_sentiment > 0.79
and (price_change > -2 and price_change < 1)` treats both `None` and `0.0`
as falsy, hence the explicit `s ≠ 0` conjunct. -/
def row_signal (average_volume : ℚ) (hist : String → List ℚ) (now : String)
    (row : Row) : Option Signal :=
  let market_data : MarketData :=
    ⟨some row.volume, some row.priceChangePercent, hist row.symbol⟩
  match calculate_market_sentiment_by_volume row.symbol market_data
      average_volume none with
  | some s =>
    if s ≠ 0 ∧ s > 79/100 ∧
        row.priceChangePercent > -2 ∧ row.priceChangePercent < 1 then
      some ⟨row.symbol, row.priceChangePercent, row.volume, s, "BUY", now⟩
    else none
  | none => none

/-- Embeds `detect_pumps` (lines 223-271).  `data` is the fetched snapshot
batch, `hist` the per-symbol historical close prices
(`fetch_historical_close_prices`), `log` the incoming `detected_signals`.
The start message is sent first (line 225); an empty DataFrame returns
early (lines 238-240); otherwise `average_volume` is the batch mean
(line 242), each row is scored, matches are appended to both the local
batch and the global log (lines 267-268), and a non-empty batch triggers
one batch Telegram call (lines 270-271). -/
def detect_pumps (data : List Row) (hist : String → List ℚ) (now : String)
    (log : List Signal) : DetectResult :=
  if data = [] then ⟨log, [], [TelegramCall.startMsg]⟩
  else
    let average_volume := (data.map Row.volume).sum / (data.length : ℚ)
    let r := data.foldl (fun acc row =>
      match row_signal average_volume hist now row with
      | some signal => (acc.1 ++ [signal], acc.2 ++ [signal])
      | none => acc) (([] : List Signal), log)
    ⟨r.2, r.1, TelegramCall.startMsg ::
      (if r.1 = [] then [] else [TelegramCall.batchMsg r.1])⟩

lemma detect_fold_eq (avg : ℚ) (hist : String → List ℚ) (now : String)
    (data : List Row) :
    ∀ (b l : List Signal),
      data.foldl (fun acc row =>
        match row_signal avg hist now row with
        | some signal => (acc.1 ++ [signal], acc.2 ++ [signal])
        | none => acc) (b, l)
      = (b ++ data.filterMap (row_signal avg hist now),
         l ++ data.filterMap (row_signal avg hist now)) := by
  induction data with
  | nil => intro b l; simp
  | cons row rest ih =>
    intro b l
    cases hf : row_signal avg hist now row with
    | none =>
      simp only [List.foldl_cons, hf, List.filterMap_cons, ih]
    | some s =>
      simp only [List.foldl_cons, hf, List.filterMap_cons, ih,
        List.append_assoc, List.singleton_append]

/-- Characterization of a non-empty cycle: the batch is the filter-map of
the per-row decision over the snapshot rows, and the log grows by exactly
that batch. -/
lemma detect_pumps_nonempty (data : List Row) (hist : String → List ℚ)
    (now : String) (log : List Signal) (h : data ≠ []) :
    detect_pumps data hist now log =
      ⟨log ++ data.filterMap
          (row_signal ((data.map Row.volume).sum / (data.length : ℚ)) hist now),
        data.filterMap
          (row_signal ((data.map Row.volume).sum / (data.length : ℚ)) hist now),
        TelegramCall.startMsg ::
          (if data.filterMap
              (row_signal ((data.map Row.volume).sum / (data.length : ℚ)) hist now)
              = [] then []
           else [TelegramCall.batchMsg (data.filterMap
              (row_signal ((data.map Row.volume).sum / (data.length : ℚ)) hist now))])⟩ := by
  unfold detect_pumps
  rw [if_neg h]
  simp only [detect_fold_eq, List.nil_append]

lemma row_signal_eq (avg : ℚ) (hist : String → List ℚ) (now : String)
    (row : Row) :
    row_signal avg hist now row =
      match calculate_market_sentiment_by_volume row.symbol
          ⟨some row.volume, some row.priceChangePercent, hist row.symbol⟩
          avg none with
      | some s =>
        if s ≠ 0 ∧ s > 79/100 ∧
            row.priceChangePercent > -2 ∧ row.priceChangePercent < 1 then
          some ⟨row.symbol, row.priceChangePercent, row.volume, s, "BUY", now⟩
        else none
      | none => none := rfl

lemma row_signal_isSome_iff (avg : ℚ) (hist : String → List ℚ) (now : String)
    (row : Row) :
    (row_signal avg hist now row).isSome ↔
      ∃ s, calculate_market_sentiment_by_volume row.symbol
            ⟨some row.volume, some row.priceChangePercent, hist row.symbol⟩
            avg none = some s ∧
          79/100 < s ∧ -2 < row.priceChangePercent ∧ row.priceChangePercent < 1 := by
  rw [row_signal_eq]
  cases hc : calculate_market_sentiment_by_volume row.symbol
      ⟨some row.volume, some row.priceChangePercent, hist row.symbol⟩ avg none with
  | none => simp
  | some s =>
    dsimp only
    constructor
    · intro hs
      by_cases hcond : s ≠ 0 ∧ s > 79/100 ∧
          row.priceChangePercent > -2 ∧ row.priceChangePercent < 1
      · exact ⟨s, rfl, hcond.2.1, hcond.2.2.1, hcond.2.2.2⟩
      · rw [if_neg hcond] at hs
        simp at hs
    · rintro ⟨t, ht, h1, h2, h3⟩
      have hst : s = t := Option.some_inj.mp ht
      subst hst
      have hne : s ≠ 0 :=
        ne_of_gt (lt_trans (show (0:ℚ) < 79/100 by norm_num) h1)
      rw [if_pos ⟨hne, h1, h2, h3⟩]
      rfl

lemma row_signal_outside_window (avg : ℚ) (hist : String → List ℚ)
    (now : String) (row : Row) (h5 : row.priceChangePercent = 5) :
    row_signal avg hist now row = none := by
  rw [row_signal_eq]
  cases calculate_market_sentiment_by_volume row.symbol
      ⟨some row.volume, some row.priceChangePercent, hist row.symbol⟩ avg none with
  | none => rfl
  | some s =>
    dsimp only
    rw [if_neg]
    rintro ⟨-, -, -, hlt⟩
    rw [h5] at hlt
    norm_num at hlt

/-! ### Claim C1 -/

/-- C1 (confirmed): in a non-empty cycle the batch is exactly the rows whose
score passes the filter, each match is appended to both the batch and the
process-wide log, a row produces a Signal iff its score is defined, exceeds
`0.79` and the price change lies strictly in `(-2, 1)` (Python's truthiness
test `market_sentiment and …` adds an `s ≠ 0` conjunct that is subsumed by
`s > 0.79`), and a row with `price_change_percent = 5` never produces a
Signal. -/
theorem signal_emission_filter (data : List Row) (hist : String → List ℚ)
    (now : String) (log : List Signal) (h : data ≠ []) :
    (detect_pumps data hist now log).batch =
        data.filterMap
          (row_signal ((data.map Row.volume).sum / (data.length : ℚ)) hist now) ∧
    (detect_pumps data hist now log).log
        = log ++ (detect_pumps data hist now log).batch ∧
    (∀ row : Row,
        (row_signal ((data.map Row.volume).sum / (data.length : ℚ)) hist now
            row).isSome ↔
          ∃ s, calculate_market_sentiment_by_volume row.symbol
                ⟨some row.volume, some row.priceChangePercent, hist row.symbol⟩
                ((data.map Row.volume).sum / (data.length : ℚ)) none = some s ∧
              79/100 < s ∧ -2 < row.priceChangePercent ∧
              row.priceChangePercent < 1) ∧
    (∀ row : Row, row.priceChangePercent = 5 →
        row_signal ((data.map Row.volume).sum / (data.length : ℚ)) hist now row
          = none) := by
  rw [detect_pumps_nonempty data hist now log h]
  exact ⟨rfl, rfl,
    fun row => row_signal_isSome_iff _ hist now row,
    fun row h5 => row_signal_outside_window _ hist now row h5⟩

/-- C1 witness at a concrete one-row batch. -/
theorem signal_emission_filter_witness :
    (detect_pumps [⟨"BTCUSDT", 0, 1⟩] (fun _ => []) "t" []).batch =
        [⟨"BTCUSDT", 0, 1⟩].filterMap
          (row_signal (([⟨"BTCUSDT", 0, 1⟩].map Row.volume).sum /
            (([⟨"BTCUSDT", 0, 1⟩] : List Row).length : ℚ)) (fun _ => []) "t") ∧
    (detect_pumps [⟨"BTCUSDT", 0, 1⟩] (fun _ => []) "t" []).log
        = [] ++ (detect_pumps [⟨"BTCUSDT", 0, 1⟩] (fun _ => []) "t" []).batch ∧
    (∀ row : Row,
        (row_signal (([⟨"BTCUSDT", 0, 1⟩].map Row.volume).sum /
            (([⟨"BTCUSDT", 0, 1⟩] : List Row).length : ℚ)) (fun _ => []) "t"
            row).isSome ↔
          ∃ s, calculate_market_sentiment_by_volume row.symbol
                ⟨some row.volume, some row.priceChangePercent, []⟩
                (([⟨"BTCUSDT", 0, 1⟩].map Row.volume).sum /
                  (([⟨"BTCUSDT", 0, 1⟩] : List Row).length : ℚ)) none = some s ∧
              79/100 < s ∧ -2 < row.priceChangePercent ∧
              row.priceChangePercent < 1) ∧
    (∀ row : Row, row.priceChangePercent = 5 →
        row_signal (([⟨"BTCUSDT", 0, 1⟩].map Row.volume).sum /
          (([⟨"BTCUSDT", 0, 1⟩] : List Row).length : ℚ)) (fun _ => []) "t" row
          = none) :=
  signal_emission_filter [⟨"BTCUSDT", 0, 1⟩] (fun _ => []) "t" []
    (List.cons_ne_nil _ _)

/-! ### Claim C5 -/

/-- C5 counterexample: an empty snapshot batch still issues exactly one
outbound Telegram call — the unconditional "Signal Detection started.."
message sent at line 225 before the empty-check — refuting "zero outbound
notification calls are issued". -/
theorem empty_cycle_one_call_cex :
    (detect_pumps [] (fun _ => []) "t" []).calls = [TelegramCall.startMsg] ∧
    (detect_pumps [] (fun _ => []) "t" []).calls.length ≠ 0 :=
  ⟨rfl, by decide⟩

/-- C5 (corrected): a cycle with an empty snapshot batch aborts before
scoring — zero Signals are created, the signal log is returned unchanged,
and no batch notification is sent — but the unconditional start-of-cycle
message means exactly one outbound notification call is still issued. -/
theorem empty_cycle_aborts (hist : String → List ℚ) (now : String)
    (log : List Signal) :
    detect_pumps [] hist now log = ⟨log, [], [TelegramCall.startMsg]⟩ := rfl

/-! ### Claim C7 -/

/-- C7 (confirmed): `detected_signals` is append-only — each cycle returns
the old log with the cycle's batch appended, so the old log is a prefix of
the new one and the length grows monotonically; re-running a cycle on
identical fetched data produces the identical batch (scoring is
deterministic) and appends a second copy of it. -/
theorem detected_signals_append_only (data : List Row)
    (hist : String → List ℚ) (now : String) (log : List Signal) :
    (detect_pumps data hist now log).log
        = log ++ (detect_pumps data hist now log).batch ∧
    (detect_pumps data hist now (detect_pumps data hist now log).log).batch
        = (detect_pumps data hist now log).batch ∧
    (detect_pumps data hist now (detect_pumps data hist now log).log).log
        = log ++ (detect_pumps data hist now log).batch
              ++ (detect_pumps data hist now log).batch ∧
    log.length ≤ (detect_pumps data hist now log).log.length ∧
    (detect_pumps data hist now log).log.length
        ≤ (detect_pumps data hist now
            (detect_pumps data hist now log).log).log.length := by
  by_cases h : data = []
  · subst h
    simp [detect_pumps]
  · rw [detect_pumps_nonempty data hist now log h,
        detect_pumps_nonempty data hist now _ h]
    refine ⟨rfl, rfl, rfl, ?_, ?_⟩ <;> simp [List.length_append]

/-! ### Claim C10 -/

lemma sentiment_close_prices_irrelevant (symbol : String)
    (md1 md2 : MarketData) (avg : ℚ) (w : Option (ℚ × ℚ))
    (hv : md1.volume = md2.volume)
    (hp : md1.price_change_percent = md2.price_change_percent) :
    calculate_market_sentiment_by_volume symbol md1 avg w =
      calculate_market_sentiment_by_volume symbol md2 avg w := by
  unfold calculate_market_sentiment_by_volume
  rw [hv, hp]

lemma row_signal_hist_irrelevant (avg : ℚ) (hist1 hist2 : String → List ℚ)
    (now : String) (row : Row) :
    row_signal avg hist1 now row = row_signal avg hist2 now row := by
  rw [row_signal_eq, row_signal_eq,
    sentiment_close_prices_irrelevant row.symbol
      ⟨some row.volume, some row.priceChangePercent, hist1 row.symbol⟩
      ⟨some row.volume, some row.priceChangePercent, hist2 row.symbol⟩
      avg none rfl rfl]

lemma detect_pumps_hist_irrelevant (data : List Row)
    (hist1 hist2 : String → List ℚ) (now : String) (log : List Signal) :
    detect_pumps data hist1 now log = detect_pumps data hist2 now log := by
  by_cases h : data = []
  · subst h; rfl
  · rw [detect_pumps_nonempty data hist1 now log h,
        detect_pumps_nonempty data hist2 now log h]
    have hrs : row_signal ((data.map Row.volume).sum / (data.length : ℚ))
        hist1 now = row_signal ((data.map Row.volume).sum / (data.length : ℚ))
        hist2 now :=
      funext (row_signal_hist_irrelevant _ hist1 hist2 now)
    rw [hrs]

/-- C10 (confirmed): the sentiment score reads only the `volume` and
`price_change_percent` entries of `market_data` — two inputs differing only
in `close_prices` score identically — and consequently the whole cycle
(batch, log, notifications) is unchanged under any change of the per-symbol
history fetcher. -/
theorem sentiment_independent_of_history :
    (∀ (symbol : String) (md1 md2 : MarketData) (avg : ℚ)
        (w : Option (ℚ × ℚ)),
        md1.volume = md2.volume →
        md1.price_change_percent = md2.price_change_percent →
        calculate_market_sentiment_by_volume symbol md1 avg w =
          calculate_market_sentiment_by_volume symbol md2 avg w) ∧
    (∀ (data : List Row) (hist1 hist2 : String → List ℚ) (now : String)
        (log : List Signal),
        detect_pumps data hist1 now log = detect_pumps data hist2 now log) :=
  ⟨sentiment_close_prices_irrelevant, detect_pumps_hist_irrelevant⟩

/-- C10 witness: two concrete market-data records differing only in
`close_prices` receive the same score. -/
theorem sentiment_independent_of_history_witness :
    calculate_market_sentiment_by_volume "BTCUSDT" ⟨some 1, some 0, [3]⟩ 1 none
      = calculate_market_sentiment_by_volume "BTCUSDT" ⟨some 1, some 0, []⟩ 1
          none :=
  sentiment_independent_of_history.1 "BTCUSDT" ⟨some 1, some 0, [3]⟩
    ⟨some 1, some 0, []⟩ 1 none rfl rfl

/-! ### Claim C6: the USDT-pairs cache
(`fetch_binance_futures_usdt_pairs`, `pump_detector.py` lines 54-80) -/

/-- One entry of the `exchangeInfo` payload's `symbols` array, with the two
fields the function reads. -/
structure SymbolInfo where
  symbol : String
  quoteAsset : String
deriving DecidableEq

/-- Result of one call to `fetch_binance_futures_usdt_pairs`: the returned
pair list, the new value of the `usdt_pairs_cache` global, and whether the
network was accessed. -/
structure FetchPairsOutcome where
  result : List String
  cache : Option (List String)
  networkAccessed : Bool
deriving DecidableEq

/-- Embeds `fetch_binance_futures_usdt_pairs` (lines 54-80) as a state
transition on the `usdt_pairs_cache` global.  `fetchResult` is the outcome
of the network request of lines 69-71: `some data` for a parsed success
response, `none` when `requests.get`, `raise_for_status` or the payload
access raises — caught at line 78, returning `[]` with the cache left
unwritten. -/
def fetch_binance_futures_usdt_pairs (cache : Option (List String))
    (fetchResult : Option (List SymbolInfo)) : FetchPairsOutcome :=
  match cache with
  | some pairs => ⟨pairs, some pairs, false⟩
  | none =>
    match fetchResult with
    | some data =>
      let pairs := (data.filter (fun si => si.quoteAsset == "USDT")).map
        SymbolInfo.symbol
      ⟨pairs, some pairs, true⟩
    | none => ⟨[], none, true⟩

/-- A sequence of calls to `fetch_binance_futures_usdt_pairs`, threading
the cache through and recording each call's returned list and whether it
hit the network. -/
def run_pair_calls (cache : Option (List String))
    (frs : List (Option (List SymbolInfo))) :
    List (List String × Bool) × Option (List String) :=
  match frs with
  | [] => ([], cache)
  | fr :: rest =>
    let o := fetch_binance_futures_usdt_pairs cache fr
    let r := run_pair_calls o.cache rest
    ((o.result, o.networkAccessed) :: r.1, r.2)

/-- C6 (confirmed): a populated cache is returned as-is with no network
access and no invalidation; an unpopulated cache plus a failed fetch
returns `[]` and caches nothing (so the next call fetches again); a
successful fetch caches exactly the returned list; and once populated, any
sequence of further calls returns the cached list with no network access,
leaving the cache unchanged for the life of the process. -/
theorem usdt_pairs_cache_behavior :
    (∀ (pairs : List String) (fr : Option (List SymbolInfo)),
        fetch_binance_futures_usdt_pairs (some pairs) fr
          = ⟨pairs, some pairs, false⟩) ∧
    fetch_binance_futures_usdt_pairs none none = ⟨[], none, true⟩ ∧
    (∀ data : List SymbolInfo,
        (fetch_binance_futures_usdt_pairs none (some data)).cache
            = some (fetch_binance_futures_usdt_pairs none (some data)).result ∧
        (fetch_binance_futures_usdt_pairs none (some data)).networkAccessed
            = true) ∧
    (∀ (pairs : List String) (frs : List (Option (List SymbolInfo))),
        run_pair_calls (some pairs) frs
          = (frs.map (fun _ => (pairs, false)), some pairs)) := by
  refine ⟨fun pairs fr => rfl, rfl, fun data => ⟨rfl, rfl⟩, fun pairs frs => ?_⟩
  induction frs with
  | nil => rfl
  | cons fr rest ih =>
    simp [run_pair_calls, fetch_binance_futures_usdt_pairs, ih]

/-! ### Claim C8: config loading
(`load_config` in `pump_detector.py` lines 16-36 and `telegram_bot.py`
lines 6-16, plus the module-level constant reads) -/

/-- A config value: a possibly-unset string (API key, token, chat id) or a
number (thresholds, interval). -/
inductive ConfigVal where
  | str : Option String → ConfigVal
  | num : ℚ → ConfigVal
deriving DecidableEq

/-- Python `config[key]`: `some` the stored value, `none` for `KeyError`. -/
def dict_get (cfg : List (String × ConfigVal)) (key : String) :
    Option ConfigVal :=
  (cfg.find? (fun kv => kv.1 == key)).map Prod.snd

/-- Embeds `load_config` of `pump_detector.py` (lines 16-36).  `file` is
`some cfg` when `config.json` exists and parses to `cfg`, `none` on
`FileNotFoundError`; `envStr` and `envNum` model `os.getenv` (numeric
values already passed through `float`/`int`, with the documented defaults
5.0, 1000 and 300 applied when the variable is unset).  Note the fallback
dict stores upper-case keys. -/
def load_config_pump_detector (file : Option (List (String × ConfigVal)))
    (envStr : String → Option String) (envNum : String → Option ℚ) :
    List (String × ConfigVal) :=
  match file with
  | some cfg => cfg
  | none =>
    [("BINANCE_API_KEY", ConfigVal.str (envStr "binance_api_key")),
     ("PRICE_CHANGE_THRESHOLD",
       ConfigVal.num ((envNum "price_change_threshold").getD 5)),
     ("VOLUME_CHANGE_THRESHOLD",
       ConfigVal.num ((envNum "volume_change_threshold").getD 1000)),
     ("BATCH_INTERVAL", ConfigVal.num ((envNum "batch_interval").getD 300))]

/-- The module-level constant reads of `pump_detector.py` lines 44-47:
`config["binance_api_key"]`, `config["price_change_threshold"]`,
`config["volume_change_threshold"]`, `config["batch_interval"]` — all
lower-case.  `none` models the `KeyError` that aborts module import. -/
def pump_detector_module_init (file : Option (List (String × ConfigVal)))
    (envStr : String → Option String) (envNum : String → Option ℚ) :
    Option (ConfigVal × ConfigVal × ConfigVal × ConfigVal) :=
  let config := load_config_pump_detector file envStr envNum
  match dict_get config "binance_api_key",
      dict_get config "price_change_threshold",
      dict_get config "volume_change_threshold",
      dict_get config "batch_interval" with
  | some a, some b, some c, some d => some (a, b, c, d)
  | _, _, _, _ => none

/-- Embeds `load_config` of `telegram_bot.py` (lines 6-16); the fallback
dict stores the upper-case keys `TELEGRAM_TOKEN` and `CHAT_ID`. -/
def load_config_telegram_bot (file : Option (List (String × ConfigVal)))
    (envStr : String → Option String) : List (String × ConfigVal) :=
  match file with
  | some cfg => cfg
  | none =>
    [("TELEGRAM_TOKEN", ConfigVal.str (envStr "telegram_token")),
     ("CHAT_ID", ConfigVal.str (envStr "chat_id"))]

/-- The module-level constant reads of `telegram_bot.py` lines 20-21:
`config["telegram_token"]` and `config["chat_id"]`, lower-case. -/
def telegram_bot_module_init (file : Option (List (String × ConfigVal)))
    (envStr : String → Option String) : Option (ConfigVal × ConfigVal) :=
  let config := load_config_telegram_bot file envStr
  match dict_get config "telegram_token", dict_get config "chat_id" with
  | some t, some c => some (t, c)
  | _, _ => none

/-- C8 (code_bug): when `config.json` is absent, module initialization
fails with `KeyError` for every environment — the env-fallback dict stores
upper-case keys while the module constants read lower-case keys — so no
recognized config value is ever sourced from the environment, contradicting
`load_config`'s own docstring. -/
theorem config_env_fallback_breaks_import
    (envStr : String → Option String) (envNum : String → Option ℚ) :
    pump_detector_module_init none envStr envNum = none ∧
    telegram_bot_module_init none envStr = none :=
  ⟨rfl, rfl⟩


/-! ### Claim C9: the scheduler loop (`batch_processor`, lines 295-304) -/

/-- A raw row of the 24h-ticker payload as it reaches the per-row loop of
`detect_pumps`.  `fetch_binance_data` (lines 82-106) coerces only the
`volume` column to numeric (line 100) and drops rows whose volume fails to
parse (line 101); `priceChangePercent` stays a string until
`float(row["priceChangePercent"])` at line 247.  `priceChangePercent =
none` models a missing or non-numeric value, on which that `float` call
raises an uncaught `ValueError`/`KeyError`; `volume = none` models a
non-numeric volume, coerced to NaN and dropped by the fetch. -/
structure RawRow where
  symbol : String
  priceChangePercent : Option ℚ
  volume : Option ℚ
deriving DecidableEq

/-- Embeds `fetch_binance_data` (lines 82-106): keep rows whose symbol is
in the universe, coerce `volume`, drop rows with non-numeric volume; any
exception during the request is caught at line 104 and yields an empty
DataFrame (`tickerResult = none`). -/
def fetch_binance_data (usdt_pairs : List String)
    (tickerResult : Option (List RawRow)) : List RawRow :=
  match tickerResult with
  | none => []
  | some rows =>
    (rows.filter (fun r => usdt_pairs.contains r.symbol)).filter
      (fun r => r.volume.isSome)

/-- `data["volume"].mean()` at line 242: pandas averages the non-null
entries of the column. -/
def mean_volume (data : List RawRow) : ℚ :=
  (data.filterMap RawRow.volume).sum /
    ((data.filterMap RawRow.volume).length : ℚ)

/-- The per-row loop of lines 245-268 with exceptions tracked.  Each row is
parsed by `float(row["priceChangePercent"])` (line 247) and
`float(row["volume"])` (line 248) — both outside every handler, so a row
whose field is missing or non-numeric aborts the loop with the signals
appended so far kept in the log; a parsed row is scored and appended
exactly as in `row_signal`.  Returns ((batch, log), uncaught exception). -/
def score_rows (average_volume : ℚ) (hist : String → List ℚ) (now : String) :
    List RawRow → List Signal × List Signal →
      (List Signal × List Signal) × Option String
  | [], acc => (acc, none)
  | row :: rest, acc =>
    match row.priceChangePercent, row.volume with
    | some price_change, some volume =>
      match row_signal average_volume hist now
          ⟨row.symbol, price_change, volume⟩ with
      | some signal =>
        score_rows average_volume hist now rest
          (acc.1 ++ [signal], acc.2 ++ [signal])
      | none => score_rows average_volume hist now rest acc
    | _, _ => (acc, some "ValueError")

/-- Environment of one detection cycle: whether each of the two possible
`send_telegram_message` calls raises a transport-level exception
(`requests.post` raising, e.g. a connection error — `send_telegram_message`
in `telegram_bot.py` lines 24-30 only inspects the status code of a
completed response and catches nothing), and the outcomes of the two
fetches. -/
structure CycleEnv where
  startSendRaises : Bool
  batchSendRaises : Bool
  pairsFetch : Option (List SymbolInfo)
  tickerFetch : Option (List RawRow)
  hist : String → List ℚ
  now : String

/-- Outcome of one `detect_pumps()` call with exceptions tracked: the final
value of `detected_signals` and the uncaught exception, if any. -/
structure CycleOutcome where
  log : List Signal
  raised : Option String
deriving DecidableEq

/-- Embeds one full `detect_pumps()` call as invoked by `batch_processor`:
the start message is sent first (line 225) and an exception there
propagates with nothing else executed; the universe and ticker fetches
catch their own errors internally (returning `[]` resp. an empty
DataFrame); an empty DataFrame returns early (lines 238-240); the per-row
loop can raise an uncaught `ValueError`/`KeyError` from
`float(row["priceChangePercent"])` at line 247 (only `volume` was coerced
by the fetch), aborting the cycle with the log partially extended; scoring
itself raises nothing (`calculate_market_sentiment_by_volume` catches
everything); a non-empty batch triggers the batch send at line 271 after
`detected_signals` has already been extended, and an exception there
propagates. -/
def detect_pumps_run (env : CycleEnv) (cache : Option (List String))
    (log : List Signal) : CycleOutcome :=
  if env.startSendRaises then ⟨log, some "ConnectionError"⟩
  else
    let pairs := (fetch_binance_futures_usdt_pairs cache env.pairsFetch).result
    let data := fetch_binance_data pairs env.tickerFetch
    if data = [] then ⟨log, none⟩
    else
      let r := score_rows (mean_volume data) env.hist env.now data ([], log)
      match r.2 with
      | some e => ⟨r.1.2, some e⟩
      | none =>
        if r.1.1 ≠ [] ∧ env.batchSendRaises = true then
          ⟨r.1.2, some "ConnectionError"⟩
        else ⟨r.1.2, none⟩

/-- `batch_processor` (lines 295-304) wraps `detect_pumps()` in no handler:
its `while True` loop reaches the next scheduled cycle iff the cycle raised
nothing. -/
def batch_processor_step (env : CycleEnv) (cache : Option (List String))
    (log : List Signal) : CycleOutcome :=
  detect_pumps_run env cache log

lemma score_rows_all_parsed (average_volume : ℚ) (hist : String → List ℚ)
    (now : String) :
    ∀ (rows : List RawRow) (acc : List Signal × List Signal),
      (∀ r ∈ rows, r.priceChangePercent.isSome ∧ r.volume.isSome) →
      (score_rows average_volume hist now rows acc).2 = none := by
  intro rows
  induction rows with
  | nil => intro acc h; rfl
  | cons row rest ih =>
    intro acc h
    obtain ⟨hp, hv⟩ := h row (List.mem_cons_self row rest)
    obtain ⟨pc, hpc⟩ := Option.isSome_iff_exists.mp hp
    obtain ⟨vol, hvol⟩ := Option.isSome_iff_exists.mp hv
    have hrest : ∀ r ∈ rest, r.priceChangePercent.isSome ∧ r.volume.isSome :=
      fun r hr => h r (List.mem_cons_of_mem row hr)
    simp only [score_rows, hpc, hvol]
    cases row_signal average_volume hist now ⟨row.symbol, pc, vol⟩ with
    | some signal => exact ih _ hrest
    | none => exact ih _ hrest

lemma score_rows_bad_row (average_volume : ℚ) (hist : String → List ℚ)
    (now : String) :
    ∀ (rows : List RawRow) (acc : List Signal × List Signal) (r : RawRow),
      r ∈ rows → r.priceChangePercent = none →
      (score_rows average_volume hist now rows acc).2.isSome = true := by
  intro rows
  induction rows with
  | nil => intro acc r hr; exact absurd hr (List.not_mem_nil r)
  | cons row rest ih =>
    intro acc r hr hbad
    rcases List.mem_cons.mp hr with heq | hmem
    · subst heq
      cases hv : r.volume <;> simp [score_rows, hbad, hv]
    · cases hp : row.priceChangePercent with
      | none => simp [score_rows, hp]
      | some pc =>
        cases hv : row.volume with
        | none => simp [score_rows, hp, hv]
        | some vol =>
          simp only [score_rows, hp, hv]
          cases row_signal average_volume hist now ⟨row.symbol, pc, vol⟩ with
          | some signal => exact ih _ r hmem hbad
          | none => exact ih _ r hmem hbad

lemma fetch_binance_data_volume_parsed (usdt_pairs : List String)
    (tickerResult : Option (List RawRow)) :
    ∀ r ∈ fetch_binance_data usdt_pairs tickerResult, r.volume.isSome := by
  intro r hr
  cases tickerResult with
  | none => exact absurd hr (List.not_mem_nil r)
  | some rows =>
    simp only [fetch_binance_data, List.mem_filter] at hr
    exact hr.2

/-- C9 counterexample: two concrete cycles terminate `batch_processor`'s
loop — one whose fetched ticker batch contains a row with a non-numeric
`priceChangePercent` (the `float` at line 247 raises outside every
handler), and one whose Telegram send raises a transport exception. -/
theorem batch_processor_uncaught_cex :
    (batch_processor_step
        ⟨false, false, none, some [⟨"BTCUSDT", none, some 1⟩], fun _ => [], "t"⟩
        (some ["BTCUSDT"]) []).raised = some "ValueError" ∧
    (batch_processor_step ⟨true, false, none, none, fun _ => [], "t"⟩ none
        []).raised = some "ConnectionError" :=
  ⟨rfl, rfl⟩

/-- C9 (corrected): errors inside the fetch helpers and the scorer are
non-fatal — a cycle whose Telegram sends complete and whose fetched rows
all carry a parseable `priceChangePercent` raises nothing, whatever the
fetch outcomes — but two paths escape every handler and terminate
`batch_processor`: a transport exception from either Telegram send, and
the `float(row["priceChangePercent"])` parse at line 247 on a fetched row
whose value is missing or non-numeric (the fetch coerces only `volume`). -/
theorem batch_processor_error_paths :
    (∀ (env : CycleEnv) (cache : Option (List String)) (log : List Signal),
        env.startSendRaises = false → env.batchSendRaises = false →
        (∀ r ∈ fetch_binance_data
            (fetch_binance_futures_usdt_pairs cache env.pairsFetch).result
            env.tickerFetch, r.priceChangePercent.isSome) →
        (batch_processor_step env cache log).raised = none) ∧
    (∀ (env : CycleEnv) (cache : Option (List String)) (log : List Signal),
        env.startSendRaises = true →
        (batch_processor_step env cache log).raised
          = some "ConnectionError") ∧
    (∀ (env : CycleEnv) (cache : Option (List String)) (log : List Signal)
        (r : RawRow),
        env.startSendRaises = false →
        r ∈ fetch_binance_data
            (fetch_binance_futures_usdt_pairs cache env.pairsFetch).result
            env.tickerFetch →
        r.priceChangePercent = none →
        (batch_processor_step env cache log).raised.isSome = true) := by
  refine ⟨?_, ?_, ?_⟩
  · intro env cache log h1 h2 hrows
    simp only [batch_processor_step, detect_pumps_run, h1,
      Bool.false_eq_true, if_false]
    by_cases hd : fetch_binance_data
        (fetch_binance_futures_usdt_pairs cache env.pairsFetch).result
        env.tickerFetch = []
    · simp [hd]
    · rw [if_neg hd]
      rw [score_rows_all_parsed _ env.hist env.now _ ([], log)
        (fun r hr => ⟨hrows r hr,
          fetch_binance_data_volume_parsed _ env.tickerFetch r hr⟩)]
      simp [h2]
  · intro env cache log h1
    simp [batch_processor_step, detect_pumps_run, h1]
  · intro env cache log r h1 hmem hbad
    simp only [batch_processor_step, detect_pumps_run, h1,
      Bool.false_eq_true, if_false]
    have hd : fetch_binance_data
        (fetch_binance_futures_usdt_pairs cache env.pairsFetch).result
        env.tickerFetch ≠ [] := by
      intro h0
      rw [h0] at hmem
      exact absurd hmem (List.not_mem_nil r)
    rw [if_neg hd]
    obtain ⟨e, he⟩ := Option.isSome_iff_exists.mp
      (score_rows_bad_row (mean_volume _) env.hist env.now _ ([], log) r hmem
        hbad)
    rw [he]
    rfl

/-- C9 witness at concrete cycles for each hypothesis. -/
theorem batch_processor_error_paths_witness :
    (batch_processor_step ⟨false, false, none, none, fun _ => [], "t"⟩ none
        []).raised = none ∧
    (batch_processor_step ⟨true, false, none, none, fun _ => [], "u"⟩ none
        []).raised = some "ConnectionError" ∧
    (batch_processor_step
        ⟨false, false, none, some [⟨"ETHUSDT", none, some 2⟩], fun _ => [], "v"⟩
        (some ["ETHUSDT"]) []).raised.isSome = true :=
  ⟨batch_processor_error_paths.1 ⟨false, false, none, none, fun _ => [], "t"⟩
      none [] rfl rfl (fun r hr => absurd hr (List.not_mem_nil r)),
   batch_processor_error_paths.2.1 ⟨true, false, none, none, fun _ => [], "u"⟩
      none [] rfl,
   batch_processor_error_paths.2.2
      ⟨false, false, none, some [⟨"ETHUSDT", none, some 2⟩], fun _ => [], "v"⟩
      (some ["ETHUSDT"]) [] ⟨"ETHUSDT", none, some 2⟩ rfl (by decide) rfl⟩
